import Mathlib

/-
  Verification development for the telemetry dispatch core of
  access_py_telemetry (api.py): the ApiHandler record builder and
  configuration methods, the SessionID lazy singleton, and the
  send_telemetry / send_in_loop delivery bridge.

  Python dicts are modelled as insertion-ordered association lists;
  Python exceptions are modelled with Except; ambient inputs (OS user
  name, clock, network outcome, event-loop state) are explicit
  parameters.
-/

set_option linter.unusedVariables false
set_option maxRecDepth 8000

/-- Dynamically typed Python values, as far as the telemetry records need them. -/
inductive PyVal where
  | str : String → PyVal
  | int : Int → PyVal
  | bool : Bool → PyVal
  | list : List PyVal → PyVal
  | dict : List (String × PyVal) → PyVal
  | none : PyVal
deriving Repr

/-- Lookup in an insertion-ordered association list (Python `d[k]` / `d.get(k)`). -/
def alistGet {α : Type} (l : List (String × α)) (k : String) : Option α :=
  match l with
  | [] => Option.none
  | (k2, v) :: rest => if k2 = k then some v else alistGet rest k

/-- Python `d.get(k, default)`. -/
def alistGetD {α : Type} (l : List (String × α)) (k : String) (d : α) : α :=
  (alistGet l k).getD d

/-- Python `d[k] = v`: overwrite in place (keeping the key position) or append. -/
def alistSet {α : Type} (l : List (String × α)) (k : String) (v : α) : List (String × α) :=
  match l with
  | [] => [(k, v)]
  | (k2, v2) :: rest =>
      if k2 = k then (k2, v) :: rest else (k2, v2) :: alistSet rest k v

/-- Python `d.pop(k)` with no default: `some` of the remaining dict when the
key is present, `Option.none` when it is absent (the KeyError case). -/
def dictPop {α : Type} (l : List (String × α)) (k : String) :
    Option (List (String × α)) :=
  match l with
  | [] => Option.none
  | (k2, v2) :: rest =>
      if k2 = k then some rest else (dictPop rest k).map (fun r => (k2, v2) :: r)

/-- A telemetry record: a Python dict with string keys. -/
abbrev Dict := List (String × PyVal)

/- ------------------------------------------------------------------
   SHA-256 (hashlib.sha256(...).hexdigest()), over byte lists.
   ------------------------------------------------------------------ -/

/-- Truncate to a 32-bit word. -/
def w32 (n : Nat) : Nat := n % 4294967296

/-- 32-bit right rotation. -/
def rotr32 (x n : Nat) : Nat := w32 ((x >>> n) ||| (x <<< (32 - n)))

def bigSigma0 (x : Nat) : Nat := (rotr32 x 2) ^^^ (rotr32 x 13) ^^^ (rotr32 x 22)

def bigSigma1 (x : Nat) : Nat := (rotr32 x 6) ^^^ (rotr32 x 11) ^^^ (rotr32 x 25)

def smallSigma0 (x : Nat) : Nat := (rotr32 x 7) ^^^ (rotr32 x 18) ^^^ (x >>> 3)

def smallSigma1 (x : Nat) : Nat := (rotr32 x 17) ^^^ (rotr32 x 19) ^^^ (x >>> 10)

def chV (x y z : Nat) : Nat := (x &&& y) ^^^ ((x ^^^ 4294967295) &&& z)

def majV (x y z : Nat) : Nat := (x &&& y) ^^^ (x &&& z) ^^^ (y &&& z)

/-- The SHA-256 round constants (decimal). -/
def K64 : List Nat :=
  [1116352408, 1899447441, 3049323471, 3921009573, 961987163,
   1508970993, 2453635748, 2870763221, 3624381080, 310598401,
   607225278, 1426881987, 1925078388, 2162078206, 2614888103,
   3248222580, 3835390401, 4022224774, 264347078, 604807628,
   770255983, 1249150122, 1555081692, 1996064986, 2554220882,
   2821834349, 2952996808, 3210313671, 3336571891, 3584528711,
   113926993, 338241895, 666307205, 773529912, 1294757372,
   1396182291, 1695183700, 1986661051, 2177026350, 2456956037,
   2730485921, 2820302411, 3259730800, 3345764771, 3516065817,
   3600352804, 4094571909, 275423344, 430227734, 506948616,
   659060556, 883997877, 958139571, 1322822218, 1537002063,
   1747873779, 1955562222, 2024104815, 2227730452, 2361852424,
   2428436474, 2756734187, 3204031479, 3329325298]

/-- A SHA-256 hash state: eight 32-bit words. -/
structure Hash8 where
  a0 : Nat
  a1 : Nat
  a2 : Nat
  a3 : Nat
  a4 : Nat
  a5 : Nat
  a6 : Nat
  a7 : Nat
deriving Repr, DecidableEq

/-- The SHA-256 initial hash value (decimal). -/
def initHash : Hash8 :=
  { a0 := 1779033703, a1 := 3144134277, a2 := 1013904242, a3 := 2773480762,
    a4 := 1359893119, a5 := 2600822924, a6 := 528734635, a7 := 1541459225 }

/-- Expand a 64-byte block into the 64-word message schedule. -/
def msgSchedule (block : List Nat) : List Nat :=
  let w16 := (List.range 16).map (fun i =>
    (block.getD (4 * i) 0) <<< 24 + (block.getD (4 * i + 1) 0) <<< 16 +
    (block.getD (4 * i + 2) 0) <<< 8 + block.getD (4 * i + 3) 0)
  (List.range 48).foldl (fun w _ =>
    let n := w.length
    w ++ [w32 (smallSigma1 (w.getD (n - 2) 0) + w.getD (n - 7) 0 +
               smallSigma0 (w.getD (n - 15) 0) + w.getD (n - 16) 0)]) w16

/-- One SHA-256 compression step over a 64-byte block. -/
def compress (h : Hash8) (block : List Nat) : Hash8 :=
  let ws := msgSchedule block
  let f := (List.zip K64 ws).foldl
    (fun (s : Hash8) (kw : Nat × Nat) =>
      let t1 := w32 (s.a7 + bigSigma1 s.a4 + chV s.a4 s.a5 s.a6 + kw.1 + kw.2)
      let t2 := w32 (bigSigma0 s.a0 + majV s.a0 s.a1 s.a2)
      { a0 := w32 (t1 + t2), a1 := s.a0, a2 := s.a1, a3 := s.a2,
        a4 := w32 (s.a3 + t1), a5 := s.a4, a6 := s.a5, a7 := s.a6 }) h
  { a0 := w32 (h.a0 + f.a0), a1 := w32 (h.a1 + f.a1), a2 := w32 (h.a2 + f.a2),
    a3 := w32 (h.a3 + f.a3), a4 := w32 (h.a4 + f.a4), a5 := w32 (h.a5 + f.a5),
    a6 := w32 (h.a6 + f.a6), a7 := w32 (h.a7 + f.a7) }

/-- A 64-bit big-endian byte encoding (for the padded bit length). -/
def be64 (n : Nat) : List Nat :=
  [n >>> 56 % 256, n >>> 48 % 256, n >>> 40 % 256, n >>> 32 % 256,
   n >>> 24 % 256, n >>> 16 % 256, n >>> 8 % 256, n % 256]

/-- SHA-256 padding: append 0x80, zero bytes to 56 mod 64, then the bit length. -/
def padMessage (msg : List Nat) : List Nat :=
  let L := msg.length
  let zeros := (120 - (L + 1) % 64) % 64
  msg ++ 0x80 :: List.replicate zeros 0 ++ be64 (8 * L)

/-- Fold the compression function over n consecutive 64-byte blocks. -/
def processBlocksN : Nat → Hash8 → List Nat → Hash8
  | 0, h, _ => h
  | n + 1, h, l => processBlocksN n (compress h (l.take 64)) (l.drop 64)

/-- Fold the compression function over all 64-byte blocks of a padded
message (whose length is always a positive multiple of 64). -/
def processBlocks (h : Hash8) (l : List Nat) : Hash8 :=
  processBlocksN ((l.length + 63) / 64) h l

/-- The sixteen lowercase hex digits. -/
def hexChars : List Char := "0123456789abcdef".data

/-- The hex digit of a nibble. -/
def hexChar (n : Nat) : Char := hexChars.getD (n % 16) '0'

/-- The eight hex digits of a 32-bit word, most significant first. -/
def wordHex (w : Nat) : List Char :=
  [hexChar (w >>> 28), hexChar (w >>> 24), hexChar (w >>> 20), hexChar (w >>> 16),
   hexChar (w >>> 12), hexChar (w >>> 8), hexChar (w >>> 4), hexChar w]

/-- hashlib.sha256(msg).hexdigest(): the 64-character lowercase hex digest. -/
def sha256hex (msg : List Nat) : String :=
  let d := processBlocks initHash (padMessage msg)
  String.mk (wordHex d.a0 ++ wordHex d.a1 ++ wordHex d.a2 ++ wordHex d.a3 ++
             wordHex d.a4 ++ wordHex d.a5 ++ wordHex d.a6 ++ wordHex d.a7)

/-- str.encode() for the ASCII strings the session id is built from. -/
def strBytes (s : String) : List Nat := s.data.map Char.toNat

/- ------------------------------------------------------------------
   SessionID: lazy, cached session identifier.
   ------------------------------------------------------------------ -/

/-- SessionID.create_session_id(): hash of "login_timestamp" with SHA-256. -/
def create_session_id (login timestamp : String) : String :=
  sha256hex (strBytes (login ++ "_" ++ timestamp))

/-- SessionID.__get__: compute the value on first access, return the cached
value afterwards. The state is the optional cached value; the login name and
the clock reading at access time are ambient inputs. -/
def sessionRead (login timestamp : String) (st : Option String) :
    String × Option String :=
  match st with
  | Option.none => let v := create_session_id login timestamp; (v, some v)
  | some v => (v, some v)

/- ------------------------------------------------------------------
   ApiHandler state and operations.
   ------------------------------------------------------------------ -/

/-- The Python exceptions the telemetry core raises. -/
inductive PyErr where
  | keyError : String → PyErr
  | validationError : String → PyErr
  | pyExc : String → PyErr
deriving Repr, DecidableEq

/-- Is this Except value a normal return? -/
def exceptOk {α : Type} : Except PyErr α → Bool
  | .ok _ => true
  | .error _ => false

/-- The mutable state of the ApiHandler singleton. -/
structure ApiHandler where
  server_url : String
  endpoints : List (String × String)
  extra_fields : List (String × Dict)
  pop_fields : List (String × List String)
  last_record : Option Dict
deriving Repr

/-- The default server URL constant. -/
def SERVER_URL : String := "https://tracking-services-d6c2fd311c12.herokuapp.com"

/-- A fresh handler over a given endpoint map: extra_fields starts as an empty
overlay per known service, pop_fields starts empty, no record built yet. -/
def mkHandler (endpoints : List (String × String)) : ApiHandler :=
  { server_url := SERVER_URL
    endpoints := endpoints
    extra_fields := endpoints.map (fun p => (p.1, []))
    pop_fields := []
    last_record := Option.none }

/-- Ambient process inputs for record building: the OS user name and the
already-resolved session id string. -/
structure Env where
  username : String
  session_id : String

/-- Is this Python value a string-keyed dict? (the shape pydantic accepts for
the fields argument of add_extra_fields). -/
def isDict : PyVal → Bool
  | .dict _ => true
  | _ => false

/-- ApiHandler.add_extra_fields: pydantic validates the fields argument
first; then the service must already have an endpoint; on success the
overlay for the service is replaced. Returns the result together with the
post-call handler state. -/
def add_extra_fields (h : ApiHandler) (service_name : String) (fields : PyVal) :
    Except PyErr Unit × ApiHandler :=
  match fields with
  | .dict fs =>
      if (alistGet h.endpoints service_name).isSome then
        (.ok (), { h with extra_fields := alistSet h.extra_fields service_name fs })
      else
        (.error (.keyError ("Endpoint for " ++ service_name ++ " not found")), h)
  | _ => (.error (.validationError "fields is not a string-keyed mapping"), h)

/-- ApiHandler.remove_fields: a single string becomes a one-element list; the
suppression list for the service is replaced; no endpoint check is made. -/
def remove_fields (h : ApiHandler) (service : String)
    (fields : String ⊕ List String) : Except PyErr Unit × ApiHandler :=
  let fs := match fields with
    | .inl s => [s]
    | .inr l => l
  (.ok (), { h with pop_fields := alistSet h.pop_fields service fs })

/-- Pop the listed fields one after the other; a pop of an absent key raises
KeyError naming the field, exactly as dict.pop does. -/
def popAll (d : Dict) (fields : List String) : Except PyErr Dict :=
  match fields with
  | [] => .ok d
  | f :: fs =>
      match dictPop d f with
      | some d2 => popAll d2 fs
      | Option.none => .error (.keyError f)

/-- The record before suppression: the five base keys in order, then the
per-service overlay merged in with the overlay winning on key collision. -/
def mergedRecord (env : Env) (h : ApiHandler) (service_name function_name : String)
    (args : List PyVal) (kwargs : Dict) : Dict :=
  let base : Dict :=
    [("name", .str env.username), ("function", .str function_name),
     ("args", .list args), ("kwargs", .dict kwargs),
     ("session_id", .str env.session_id)]
  (alistGetD h.extra_fields service_name []).foldl
    (fun d p => alistSet d p.1 p.2) base

/-- ApiHandler._create_telemetry_record: build the merged record, pop every
suppressed field, and cache the result as last_record. On a KeyError from a
pop the cache is not written (the assignment comes after the loop). -/
def createTelemetryRecord (env : Env) (h : ApiHandler)
    (service_name function_name : String) (args : List PyVal) (kwargs : Dict) :
    Except PyErr Dict × ApiHandler :=
  match popAll (mergedRecord env h service_name function_name args kwargs)
        (alistGetD h.pop_fields service_name []) with
  | .ok data => (.ok data, { h with last_record := some data })
  | .error e => (.error e, h)

/- ------------------------------------------------------------------
   Delivery bridge: send_telemetry and send_in_loop.
   ------------------------------------------------------------------ -/

/-- What the one network attempt does, as an ambient input: a 2xx response,
a non-2xx response (raise_for_status), a transport error, or any other
exception raised inside the coroutine. -/
inductive HttpOutcome where
  | success : Nat → HttpOutcome
  | httpStatusError : Nat → HttpOutcome
  | requestError : String → HttpOutcome
  | otherExc : String → HttpOutcome
deriving Repr, DecidableEq

/-- send_telemetry: POST the data; RequestError and HTTPStatusError are
caught and downgraded to a RuntimeWarning; any other exception propagates
out of the coroutine. Returns the warnings it emitted. -/
def send_telemetry (outcome : HttpOutcome) (endpoint : String) (data : Dict) :
    Except PyErr (List String) :=
  match outcome with
  | .success _ => .ok []
  | .httpStatusError s =>
      .ok ["Request failed: HTTPStatusError " ++ toString s]
  | .requestError m => .ok ["Request failed: " ++ m]
  | .otherExc m => .error (.pyExc m)

/-- Whether an event loop is already running in the calling thread. -/
inductive LoopState where
  | running : LoopState
  | noLoop : LoopState
deriving Repr, DecidableEq

/-- The timeout passed to future.result on the no-loop path, in seconds. -/
def timeoutConst : ℚ := 1 / 10

/-- concurrent.futures.Future.result(timeout): given how long the coroutine
takes and what it returns, either the coroutine finishes within the timeout
(elapsed = its duration, its exception re-raised if any) or a TimeoutError is
raised after exactly the timeout. The first component is the time the caller
spent blocked. -/
inductive WaitErr where
  | timeout : WaitErr
  | exc : PyErr → WaitErr
deriving Repr, DecidableEq

def futureResult (delay : ℚ) (res : Except PyErr (List String)) (timeout : ℚ) :
    ℚ × Except WaitErr (List String) :=
  if delay ≤ timeout then
    (delay, match res with
      | .ok logs => .ok logs
      | .error e => .error (.exc e))
  else (timeout, .error .timeout)

/-- send_in_loop: with a running loop, schedule the coroutine as a background
task and return at once; with no loop, run it on a fresh loop and wait on the
future for at most timeoutConst, turning a TimeoutError or any exception into
a printed message. The payload of a normal return is the time the caller was
blocked and the warning/log lines. -/
def send_in_loop (ls : LoopState) (delay : ℚ) (outcome : HttpOutcome)
    (endpoint : String) (data : Dict) : Except PyErr (ℚ × List String) :=
  match ls with
  | .running => .ok (0, [])
  | .noLoop =>
      match futureResult delay (send_telemetry outcome endpoint data) timeoutConst with
      | (t, .ok logs) => .ok (t, logs)
      | (t, .error .timeout) => .ok (t, ["The coroutine took too long to complete"])
      | (t, .error (.exc e)) => .ok (t, ["The coroutine raised an exception"])

/-- The ambient delivery environment a send runs in. -/
structure DeliveryEnv where
  loop : LoopState
  delay : ℚ
  outcome : HttpOutcome

/-- ApiHandler.send_api_request: build the record (which caches it as
last_record), then resolve the endpoint (KeyError when the service is
unknown), then hand the URL and record to send_in_loop. Returns the result
together with the post-call handler state. -/
def send_api_request (env : Env) (de : DeliveryEnv) (h : ApiHandler)
    (service_name function_name : String) (args : List PyVal) (kwargs : Dict) :
    Except PyErr (List String) × ApiHandler :=
  match createTelemetryRecord env h service_name function_name args kwargs with
  | (.error e, h2) => (.error e, h2)
  | (.ok data, h2) =>
      match alistGet h2.endpoints service_name with
      | Option.none =>
          (.error (.keyError ("Endpoint for " ++ service_name ++ " not found in endpoints")), h2)
      | some ep =>
          match send_in_loop de.loop de.delay de.outcome (h2.server_url ++ ep) data with
          | .ok (_, warns) => (.ok warns, h2)
          | .error e => (.error e, h2)

/- ------------------------------------------------------------------
   Helper lemmas.
   ------------------------------------------------------------------ -/

theorem alistGet_alistSet {α : Type} (l : List (String × α)) (k : String) (v : α) :
    alistGet (alistSet l k v) k = some v := by
  induction l with
  | nil => simp [alistSet, alistGet]
  | cons p rest ih =>
    obtain ⟨k2, v2⟩ := p
    by_cases hk : k2 = k
    · simp [alistSet, alistGet, hk]
    · simp [alistSet, alistGet, hk, ih]

theorem dictPop_eq_none_iff {α : Type} (l : List (String × α)) (k : String) :
    dictPop l k = Option.none ↔ alistGet l k = Option.none := by
  induction l with
  | nil => simp [dictPop, alistGet]
  | cons p rest ih =>
    obtain ⟨k2, v2⟩ := p
    by_cases hk : k2 = k
    · simp [dictPop, alistGet, hk]
    · simp [dictPop, alistGet, hk, ih]

theorem alistGet_dictPop {α : Type} {l l2 : List (String × α)} {k g : String}
    (hne : k ≠ g) (hp : dictPop l k = some l2) :
    alistGet l2 g = alistGet l g := by
  induction l generalizing l2 with
  | nil => simp [dictPop] at hp
  | cons p rest ih =>
    obtain ⟨k2, v2⟩ := p
    by_cases hk : k2 = k
    · rw [show dictPop ((k2, v2) :: rest) k = some rest by simp [dictPop, hk]] at hp
      cases hp
      subst hk
      simp [alistGet, hne]
    · simp only [dictPop, if_neg hk] at hp
      rcases Option.map_eq_some'.mp hp with ⟨r2, hr2, hl2⟩
      subst hl2
      by_cases hg : k2 = g
      · simp [alistGet, hg]
      · simp [alistGet, hg, ih hr2]

theorem alistGet_dictPop_absent {α : Type} {l l2 : List (String × α)} {k g : String}
    (habs : alistGet l g = Option.none) (hp : dictPop l k = some l2) :
    alistGet l2 g = Option.none := by
  by_cases hkg : k = g
  · subst hkg
    have : dictPop l k = Option.none := (dictPop_eq_none_iff l k).mpr habs
    rw [this] at hp
    cases hp
  · rw [alistGet_dictPop hkg hp]
    exact habs

/-- A pop over a field absent from the dict makes popAll raise a KeyError. -/
theorem popAll_absent {d : Dict} {fields : List String} {f : String}
    (hmem : f ∈ fields) (habs : alistGet d f = Option.none) :
    ∃ g, popAll d fields = .error (.keyError g) := by
  induction fields generalizing d with
  | nil => cases hmem
  | cons f0 fs ih =>
    rcases List.mem_cons.mp hmem with hf | hf
    · subst hf
      have h0 : dictPop d f = Option.none := (dictPop_eq_none_iff d f).mpr habs
      exact ⟨f, by simp [popAll, h0]⟩
    · cases hp : dictPop d f0 with
      | none => exact ⟨f0, by simp [popAll, hp]⟩
      | some d2 =>
        have habs2 : alistGet d2 f = Option.none := alistGet_dictPop_absent habs hp
        rcases ih hf habs2 with ⟨g, hg⟩
        exact ⟨g, by simp [popAll, hp, hg]⟩

/-- When the fields are distinct and all present, popAll succeeds. -/
theorem popAll_all_present {d : Dict} {fields : List String}
    (hnd : fields.Nodup)
    (hall : ∀ f ∈ fields, (alistGet d f).isSome = true) :
    exceptOk (popAll d fields) = true := by
  induction fields generalizing d with
  | nil => simp [popAll, exceptOk]
  | cons f0 fs ih =>
    have h0 : (alistGet d f0).isSome = true := hall f0 (List.mem_cons_self f0 fs)
    cases hp : dictPop d f0 with
    | none =>
      rw [dictPop_eq_none_iff d f0] at hp
      rw [hp] at h0
      cases h0
    | some d2 =>
      rw [show popAll d (f0 :: fs) = popAll d2 fs by simp [popAll, hp]]
      apply ih (List.Nodup.of_cons hnd)
      intro f hf
      have hne : f0 ≠ f := by
        intro he
        subst he
        exact (List.nodup_cons.mp hnd).1 hf
      rw [alistGet_dictPop hne hp]
      exact hall f (List.mem_cons_of_mem f0 hf)

/-- Every hex digit produced by hexChar is one of the sixteen hex characters. -/
theorem hexChar_mem (n : Nat) : hexChars.contains (hexChar n) = true := by
  have h16 : n % 16 < 16 := Nat.mod_lt _ (by norm_num)
  have hall : ∀ m, m < 16 → hexChars.contains (hexChars.getD m '0') = true := by decide
  exact hall (n % 16) h16

/-- The hex digest of any message has exactly 64 characters. -/
theorem sha256hex_length (msg : List Nat) : (sha256hex msg).length = 64 := by
  simp [sha256hex, wordHex, String.length]

/-- Membership form of hexChar_mem. -/
theorem hexChar_mem_list (n : Nat) : hexChar n ∈ hexChars := by
  have h16 : n % 16 < 16 := Nat.mod_lt _ (by norm_num)
  have hall : ∀ m, m < 16 → hexChars.getD m '0' ∈ hexChars := by decide
  exact hall (n % 16) h16

/-- Every character of any hex digest is a hex digit. -/
theorem sha256hex_all_hex (msg : List Nat) :
    (sha256hex msg).data.all hexChars.contains = true := by
  simp [sha256hex, wordHex, hexChar_mem_list]

/-- Every failure of the pop fold is a KeyError. -/
theorem popAll_error_keyError {d : Dict} {fields : List String} {e : PyErr}
    (he : popAll d fields = .error e) : ∃ g, e = .keyError g := by
  induction fields generalizing d with
  | nil => simp [popAll] at he
  | cons f0 fs ih =>
    cases hp : dictPop d f0 with
    | none =>
      rw [show popAll d (f0 :: fs) = .error (.keyError f0) by simp [popAll, hp]] at he
      injection he with h1
      exact ⟨f0, h1.symm⟩
    | some d2 =>
      rw [show popAll d (f0 :: fs) = popAll d2 fs by simp [popAll, hp]] at he
      exact ih he

/-- The record result of _create_telemetry_record is exactly the pop fold
over the merged record. -/
theorem createTelemetryRecord_fst (env : Env) (h : ApiHandler)
    (s fn : String) (args : List PyVal) (kwargs : Dict) :
    (createTelemetryRecord env h s fn args kwargs).1 =
      popAll (mergedRecord env h s fn args kwargs) (alistGetD h.pop_fields s []) := by
  unfold createTelemetryRecord
  cases hE : popAll (mergedRecord env h s fn args kwargs) (alistGetD h.pop_fields s []) <;>
    simp [hE]

/- ------------------------------------------------------------------
   Claim theorems.
   ------------------------------------------------------------------ -/

/-- C1: with endpoints mapping payu to /payu/update, after
add_extra_fields payu with the overlay model = X, n = 2 and
remove_fields payu [session_id, name], building the record for function
_test with no args and kwargs yields exactly the dict with keys function,
args, kwargs, model, n: the five base keys are produced, the overlay is
merged in with the overlay winning on collision, and both suppressed keys
are removed, for every ambient user name and session id. -/
theorem overlay_merge_record (env : Env) :
    (createTelemetryRecord env
      ((remove_fields
        ((add_extra_fields (mkHandler [("payu", "/payu/update")]) "payu"
          (.dict [("model", .str "X"), ("n", .int 2)])).2)
        "payu" (.inr ["session_id", "name"])).2)
      "payu" "_test" [] []).1 =
    .ok [("function", .str "_test"), ("args", .list []), ("kwargs", .dict []),
         ("model", .str "X"), ("n", .int 2)] := by
  rfl

/-- C2: a transport error or a non-2xx HTTP status inside send_telemetry is
caught and turned into a RuntimeWarning message, and send_in_loop returns
normally for every loop state, coroutine duration and network outcome: no
delivery failure ever propagates as an exception to the caller. -/
theorem delivery_failure_nonfatal (ls : LoopState) (delay : ℚ) (ep : String)
    (data : Dict) (s : Nat) (m : String) :
    send_telemetry (.httpStatusError s) ep data =
      .ok ["Request failed: HTTPStatusError " ++ toString s]
    ∧ send_telemetry (.requestError m) ep data = .ok ["Request failed: " ++ m]
    ∧ ∀ outcome : HttpOutcome,
        exceptOk (send_in_loop ls delay outcome ep data) = true := by
  refine ⟨rfl, rfl, ?_⟩
  intro outcome
  cases ls with
  | running => rfl
  | noLoop =>
    simp only [send_in_loop, futureResult]
    by_cases hd : delay ≤ timeoutConst
    · simp only [if_pos hd]
      cases send_telemetry outcome ep data <;> rfl
    · simp only [if_neg hd]
      rfl

/-- C6: on the no-loop path, for every coroutine duration and outcome the
caller returns normally and is blocked for a time bounded by timeoutConst,
which is 0.1 seconds: when the timeout elapses or the send raises, the call
abandons the wait and still returns normally. -/
theorem noloop_bounded_blocking (delay : ℚ) (outcome : HttpOutcome)
    (ep : String) (data : Dict) :
    timeoutConst = 1 / 10
    ∧ ∃ t logs, send_in_loop .noLoop delay outcome ep data = .ok (t, logs)
        ∧ t ≤ timeoutConst := by
  refine ⟨rfl, ?_⟩
  simp only [send_in_loop, futureResult]
  by_cases hd : delay ≤ timeoutConst
  · simp only [if_pos hd]
    cases send_telemetry outcome ep data with
    | ok logs => exact ⟨delay, logs, rfl, hd⟩
    | error e => exact ⟨delay, ["The coroutine raised an exception"], rfl, hd⟩
  · simp only [if_neg hd]
    exact ⟨timeoutConst, ["The coroutine took too long to complete"], rfl, le_refl _⟩

/-- C9: add_extra_fields validates its fields argument before anything else;
when it is not a string-keyed mapping (for instance a list) the call fails
with a pydantic ValidationError, which is a different error from the
KeyError used for unknown services, and the handler state is returned
unchanged. -/
theorem add_extra_fields_validation (h : ApiHandler) (service : String)
    (fields : PyVal) (hnd : isDict fields = false) :
    add_extra_fields h service fields =
      (.error (.validationError "fields is not a string-keyed mapping"), h)
    ∧ ∀ m, (add_extra_fields h service fields).1 ≠ .error (.keyError m) := by
  cases fields <;> simp_all [isDict, add_extra_fields]

/-- Witness for C9: a list of strings is rejected with a ValidationError and
the handler is unchanged. -/
theorem add_extra_fields_validation_witness :
    isDict (PyVal.list [.str "invalid", .str "type"]) = false
    ∧ add_extra_fields (mkHandler [("payu", "/payu/update")]) "payu"
        (.list [.str "invalid", .str "type"]) =
      (.error (.validationError "fields is not a string-keyed mapping"),
       mkHandler [("payu", "/payu/update")]) :=
  ⟨rfl, (add_extra_fields_validation (mkHandler [("payu", "/payu/update")])
      "payu" (.list [.str "invalid", .str "type"]) rfl).1⟩

/-- C5: configuration has replace semantics and is idempotent: for a service
with an endpoint, setting the extra-fields overlay to the empty dict leaves
the overlay empty, and setting it to the empty dict again leaves it empty
again; setting the suppression list to the one-element list a and then to
the one-element list b leaves only b suppressed, not both. -/
theorem config_replace_idempotent (h : ApiHandler) (s : String)
    (hs : (alistGet h.endpoints s).isSome = true) :
    alistGet ((add_extra_fields h s (.dict [])).2).extra_fields s = some []
    ∧ alistGet ((add_extra_fields ((add_extra_fields h s (.dict [])).2) s
        (.dict [])).2).extra_fields s = some []
    ∧ alistGet ((remove_fields ((remove_fields h s (.inr ["a"])).2) s
        (.inr ["b"])).2).pop_fields s = some ["b"] := by
  refine ⟨?_, ?_, ?_⟩
  · simp only [add_extra_fields, if_pos hs]
    exact alistGet_alistSet h.extra_fields s []
  · simp only [add_extra_fields, if_pos hs]
    exact alistGet_alistSet _ s []
  · simp only [remove_fields]
    exact alistGet_alistSet _ s ["b"]

/-- Witness for C5: the replace semantics at a concrete handler whose
endpoint map knows the service payu. -/
theorem config_replace_idempotent_witness :
    (alistGet (mkHandler [("payu", "/payu/update")]).endpoints "payu").isSome = true
    ∧ alistGet ((add_extra_fields ((add_extra_fields
        (mkHandler [("payu", "/payu/update")]) "payu" (.dict [])).2) "payu"
        (.dict [])).2).extra_fields "payu" = some []
    ∧ alistGet ((remove_fields ((remove_fields (mkHandler [("payu", "/payu/update")])
        "payu" (.inr ["a"])).2) "payu" (.inr ["b"])).2).pop_fields "payu"
        = some ["b"] :=
  ⟨rfl,
   (config_replace_idempotent (mkHandler [("payu", "/payu/update")]) "payu" rfl).2.1,
   (config_replace_idempotent (mkHandler [("payu", "/payu/update")]) "payu" rfl).2.2⟩

/-- C10: building a record never fails because of an unknown service: when
the service has no entry in the extra-fields overlay map and none in the
suppression map, both lookups default to empty, and the builder returns the
plain base record and caches it as last_record. -/
theorem buildRecord_unknown_service_safe (env : Env) (h : ApiHandler)
    (s fn : String) (args : List PyVal) (kwargs : Dict)
    (hx : alistGet h.extra_fields s = Option.none)
    (hp : alistGet h.pop_fields s = Option.none) :
    createTelemetryRecord env h s fn args kwargs =
      (.ok [("name", .str env.username), ("function", .str fn),
            ("args", .list args), ("kwargs", .dict kwargs),
            ("session_id", .str env.session_id)],
       { h with last_record := some (
          [("name", .str env.username), ("function", .str fn),
           ("args", .list args), ("kwargs", .dict kwargs),
           ("session_id", .str env.session_id)] : Dict) }) := by
  simp [createTelemetryRecord, mergedRecord, alistGetD, hx, hp, popAll]

/-- Witness for C10: a handler that knows nothing about service payu still
builds the base record. -/
theorem buildRecord_unknown_service_safe_witness :
    alistGet (mkHandler []).extra_fields "payu" = Option.none
    ∧ alistGet (mkHandler []).pop_fields "payu" = Option.none
    ∧ createTelemetryRecord ⟨"u", "sid"⟩ (mkHandler []) "payu" "_test" [] [] =
      (.ok [("name", .str "u"), ("function", .str "_test"), ("args", .list []),
            ("kwargs", .dict []), ("session_id", .str "sid")],
       { (mkHandler []) with last_record := some (
          [("name", .str "u"), ("function", .str "_test"), ("args", .list []),
           ("kwargs", .dict []), ("session_id", .str "sid")] : Dict) }) :=
  ⟨rfl, rfl,
   buildRecord_unknown_service_safe ⟨"u", "sid"⟩ (mkHandler []) "payu" "_test" [] []
     rfl rfl⟩

/-- C7: when the suppression list for a service names a field that is absent
from the built record at removal time, the builder fails with a KeyError
naming a field (any field absent from the merged record is in particular
absent at its removal time, since pops only remove keys); when the
suppressed fields are distinct and all present in the merged record, every
pop finds its field and the builder succeeds. -/
theorem suppression_missing_field (env : Env) (h : ApiHandler)
    (s fn : String) (args : List PyVal) (kwargs : Dict) :
    ((∃ f ∈ alistGetD h.pop_fields s [],
        alistGet (mergedRecord env h s fn args kwargs) f = Option.none) →
      ∃ g, (createTelemetryRecord env h s fn args kwargs).1 = .error (.keyError g))
    ∧ ((alistGetD h.pop_fields s []).Nodup →
       (∀ f ∈ alistGetD h.pop_fields s [],
          (alistGet (mergedRecord env h s fn args kwargs) f).isSome = true) →
       exceptOk (createTelemetryRecord env h s fn args kwargs).1 = true) := by
  constructor
  · rintro ⟨f, hmem, habs⟩
    rw [createTelemetryRecord_fst]
    exact popAll_absent hmem habs
  · intro hnd hall
    rw [createTelemetryRecord_fst]
    exact popAll_all_present hnd hall

/-- Witness for C7: a suppression list naming the absent field nope makes
the builder raise a KeyError, while suppressing the present fields
session_id and name succeeds. -/
theorem suppression_missing_field_witness :
    (∃ g, (createTelemetryRecord ⟨"u", "sid"⟩
        { (mkHandler [("payu", "/payu/update")]) with
            pop_fields := [("payu", ["nope"])] }
        "payu" "_test" [] []).1 = .error (.keyError g))
    ∧ exceptOk (createTelemetryRecord ⟨"u", "sid"⟩
        { (mkHandler [("payu", "/payu/update")]) with
            pop_fields := [("payu", ["session_id", "name"])] }
        "payu" "_test" [] []).1 = true :=
  ⟨(suppression_missing_field ⟨"u", "sid"⟩
      { (mkHandler [("payu", "/payu/update")]) with
          pop_fields := [("payu", ["nope"])] } "payu" "_test" [] []).1
      ⟨"nope", by simp [alistGetD, alistGet], rfl⟩,
   (suppression_missing_field ⟨"u", "sid"⟩
      { (mkHandler [("payu", "/payu/update")]) with
          pop_fields := [("payu", ["session_id", "name"])] } "payu" "_test" [] []).2
      (by simp [alistGetD, alistGet]) (by decide)⟩

/-- C3 (amended): for every service with no endpoint entry,
add_extra_fields fails with a KeyError and returns the handler completely
unchanged, and send_api_request always fails with a KeyError and leaves the
endpoint map, the extra-fields overlay and the suppression lists unchanged.
What happens to last_record splits on the record build: when the build
succeeds (no pre-declared suppressed field is missing), the failure is the
unknown-service KeyError and last_record is overwritten with the freshly
built record, because the record is built and cached before the endpoint
lookup runs; when the build itself fails on a missing suppressed field, the
failure is that field's KeyError and the handler, last_record included, is
unchanged. -/
theorem unknown_service_fail_fast (env : Env) (de : DeliveryEnv) (h : ApiHandler)
    (s fn : String) (args : List PyVal) (kwargs : Dict) (fs : Dict)
    (hep : alistGet h.endpoints s = Option.none) :
    add_extra_fields h s (.dict fs) =
      (.error (.keyError ("Endpoint for " ++ s ++ " not found")), h)
    ∧ (∃ m, (send_api_request env de h s fn args kwargs).1 = .error (.keyError m))
    ∧ (send_api_request env de h s fn args kwargs).2.endpoints = h.endpoints
    ∧ (send_api_request env de h s fn args kwargs).2.extra_fields = h.extra_fields
    ∧ (send_api_request env de h s fn args kwargs).2.pop_fields = h.pop_fields
    ∧ (∀ data, (createTelemetryRecord env h s fn args kwargs).1 = .ok data →
        send_api_request env de h s fn args kwargs =
          (.error (.keyError ("Endpoint for " ++ s ++ " not found in endpoints")),
           { h with last_record := some data }))
    ∧ (∀ e, (createTelemetryRecord env h s fn args kwargs).1 = .error e →
        send_api_request env de h s fn args kwargs = (.error e, h)) := by
  have hadd : add_extra_fields h s (.dict fs) =
      (.error (.keyError ("Endpoint for " ++ s ++ " not found")), h) := by
    simp [add_extra_fields, hep]
  cases hC : popAll (mergedRecord env h s fn args kwargs) (alistGetD h.pop_fields s []) with
  | ok data =>
    have hcr : createTelemetryRecord env h s fn args kwargs =
        (.ok data, { h with last_record := some data }) := by
      unfold createTelemetryRecord
      rw [hC]
    have hsend : send_api_request env de h s fn args kwargs =
        (.error (.keyError ("Endpoint for " ++ s ++ " not found in endpoints")),
         { h with last_record := some data }) := by
      unfold send_api_request
      rw [hcr]
      simp [hep]
    refine ⟨hadd, ⟨_, by rw [hsend]⟩, by simp [hsend], by simp [hsend],
      by simp [hsend], ?_, ?_⟩
    · intro d hd
      rw [hcr] at hd
      simp only at hd
      cases hd
      exact hsend
    · intro e he
      rw [hcr] at he
      simp at he
  | error e0 =>
    have hcr : createTelemetryRecord env h s fn args kwargs = (.error e0, h) := by
      unfold createTelemetryRecord
      rw [hC]
    have hsend : send_api_request env de h s fn args kwargs = (.error e0, h) := by
      unfold send_api_request
      rw [hcr]
    obtain ⟨g, hg⟩ := popAll_error_keyError hC
    refine ⟨hadd, ⟨g, by rw [hsend, hg]⟩, by simp [hsend], by simp [hsend],
      by simp [hsend], ?_, ?_⟩
    · intro d hd
      rw [hcr] at hd
      simp at hd
    · intro e he
      rw [hcr] at he
      simp only at he
      cases he
      exact hsend

/-- Witness for C3 (amended): the handler from the repository's
invalid-endpoint test, with service payu unknown, exercising both branches:
with no suppression entry the call fails with the unknown-service KeyError
and caches the built record, and with a pre-declared suppression entry
naming the absent field nope the call fails with that KeyError and leaves
the handler unchanged. -/
theorem unknown_service_fail_fast_witness :
    alistGet (mkHandler [("intake_catalog", "/intake/catalog")]).endpoints "payu"
      = Option.none
    ∧ send_api_request ⟨"u", "sid"⟩ ⟨.noLoop, 1, .requestError "conn refused"⟩
        (mkHandler [("intake_catalog", "/intake/catalog")]) "payu" "_test" [] [] =
      (.error (.keyError "Endpoint for payu not found in endpoints"),
       { (mkHandler [("intake_catalog", "/intake/catalog")]) with
           last_record := some ([("name", .str "u"), ("function", .str "_test"),
             ("args", .list []), ("kwargs", .dict []),
             ("session_id", .str "sid")] : Dict) })
    ∧ send_api_request ⟨"u", "sid"⟩ ⟨.noLoop, 1, .requestError "conn refused"⟩
        { (mkHandler [("intake_catalog", "/intake/catalog")]) with
            pop_fields := [("payu", ["nope"])] } "payu" "_test" [] [] =
      (.error (.keyError "nope"),
       { (mkHandler [("intake_catalog", "/intake/catalog")]) with
           pop_fields := [("payu", ["nope"])] }) :=
  ⟨rfl,
   (unknown_service_fail_fast ⟨"u", "sid"⟩ ⟨.noLoop, 1, .requestError "conn refused"⟩
      (mkHandler [("intake_catalog", "/intake/catalog")]) "payu" "_test" [] [] []
      rfl).2.2.2.2.2.1 _ rfl,
   (unknown_service_fail_fast ⟨"u", "sid"⟩ ⟨.noLoop, 1, .requestError "conn refused"⟩
      { (mkHandler [("intake_catalog", "/intake/catalog")]) with
          pop_fields := [("payu", ["nope"])] } "payu" "_test" [] [] []
      rfl).2.2.2.2.2.2 _ rfl⟩

/-- C3 counterexample: as stated the claim is false: calling
send_api_request for the unknown service payu does fail, but it mutates the
handler state, because _create_telemetry_record stores the built record in
last_record before the endpoint lookup raises. -/
theorem unknown_service_mutates_lastRecord :
    exceptOk (send_api_request ⟨"u", "sid"⟩ ⟨.noLoop, 1, .requestError "conn refused"⟩
        (mkHandler [("intake_catalog", "/intake/catalog")]) "payu" "_test" [] []).1
      = false
    ∧ (send_api_request ⟨"u", "sid"⟩ ⟨.noLoop, 1, .requestError "conn refused"⟩
        (mkHandler [("intake_catalog", "/intake/catalog")]) "payu" "_test" [] []).2.last_record
      ≠ (mkHandler [("intake_catalog", "/intake/catalog")]).last_record := by
  constructor
  · rfl
  · intro hc
    exact Option.noConfusion hc

/-- C4: reading the session identity twice in one process returns the same
string and the second read does not recompute (the cached state is
unchanged, whatever the later clock reading is); create_session_id hashes
login_timestamp with SHA-256, so every value is a 64-character string of
lowercase hex digits; and a fresh value produced by the raw constructor at a
later timestamp differs from the one cached at first access, shown at
concrete distinct timestamps. -/
theorem session_identity (login t1 t2 : String) (st : Option String) :
    ((sessionRead login t2 (sessionRead login t1 st).2).1
        = (sessionRead login t1 st).1
     ∧ (sessionRead login t2 (sessionRead login t1 st).2).2
        = (sessionRead login t1 st).2)
    ∧ ((create_session_id login t1).length = 64
       ∧ (create_session_id login t1).data.all hexChars.contains = true)
    ∧ (sessionRead "testuser" "2026-10-12T10:00:00.000001" Option.none).1
        ≠ create_session_id "testuser" "2026-10-12T10:00:02.123456" := by
  refine ⟨?_, ⟨sha256hex_length _, sha256hex_all_hex _⟩, ?_⟩
  · cases st <;> simp [sessionRead]
  · decide

/-- Witness for C4: stability of the cached read and the concrete
distinct-timestamp inequality, instantiated from session_identity. -/
theorem session_identity_witness :
    (sessionRead "testuser" "t" (sessionRead "testuser" "s" Option.none).2).1
      = (sessionRead "testuser" "s" Option.none).1
    ∧ (sessionRead "testuser" "2026-10-12T10:00:00.000001" Option.none).1
      ≠ create_session_id "testuser" "2026-10-12T10:00:02.123456" :=
  ⟨(session_identity "testuser" "s" "t" Option.none).1.1,
   (session_identity "testuser" "s" "t" Option.none).2.2⟩
